import Mathlib

/-!
Shallow embedding of the SVG and Markdown exporters of the `rmc` repository
(`src/rmc/exporters/svg.py`, `src/rmc/exporters/markdown.py`).

Numbers: Python floats/ints are modelled as rationals (`ℚ`); all operations
used by the code (`+`, `max`, `/2`, `math.ceil`, comparisons) are exact on the
inputs considered, so `ℚ` is a faithful value-level model.

Fallible code: a Python expression that can raise (`item.rectangles[0]` on an
empty list, `ymin < 0` with `ymin = None`) is modelled with `Option`, `none`
meaning the exception propagates.

Output: each `output.write(...)` call of the renderer is modelled as one (or,
for consecutive unconditional writes forming a single tag, one merged)
`Frag` emitted to an output list, carrying the numeric values that the code
interpolates into the written string.
-/

namespace Rmc

/-- One pen sample of a stroke (`rmscene` `Point`): position, and the
per-sample physical data passed to the pen style getters. -/
structure Point where
  x : ℚ
  y : ℚ
  speed : ℚ
  direction : ℚ
  width : ℚ
  pressure : ℚ
deriving DecidableEq, Repr

/-- An axis-aligned rectangle of a highlight (`rmscene` `Rectangle`). -/
structure Rectangle where
  x : ℚ
  y : ℚ
  w : ℚ
  h : ℚ
deriving DecidableEq, Repr

/-- The payload of a `SceneLineItemBlock` (`rmscene` `Line`): tool enum
(value and name), color enum value, thickness scale and the sample list. -/
structure Stroke where
  toolValue : ℕ
  toolName : String
  colorValue : ℕ
  colorName : String
  thickness_scale : ℚ
  points : List Point
deriving DecidableEq, Repr

/-- The payload of a `SceneGlyphItemBlock` (`rmscene` `GlyphRange`). -/
structure GlyphRange where
  length : ℕ
  text : String
  colorValue : ℕ
  colorName : String
  rectangles : List Rectangle
deriving DecidableEq, Repr

/-- One CRDT text item of a `RootTextBlock` (`value` is checked for
blankness, `text` is what `draw_text` writes into the `<text>` element). -/
structure TextItem where
  item_id : String
  value : String
  text : String
deriving DecidableEq, Repr

/-- Modelled from the spec: a paragraph as reconstructed by
`TextDocument.from_scene_item` (rmscene, not under `src/`): a style tag
(enum value) and the paragraph text (`str(p)`). -/
structure Paragraph where
  styleValue : ℕ
  text : String
deriving DecidableEq, Repr

/-- The payload of a `RootTextBlock`: anchor position and text items; the
`contents` field is the paragraph sequence that
`TextDocument.from_scene_item` (rmscene, not under `src/`) reconstructs from
the same block, used only by the markdown exporter. -/
structure TextRoot where
  pos_x : ℚ
  pos_y : ℚ
  items : List TextItem
  contents : List Paragraph
deriving DecidableEq, Repr

/-- A decoded block, the tagged variant dispatched on by `blocks_to_svg`:
`SceneLineItemBlock`, `SceneGlyphItemBlock`, `RootTextBlock`,
`PageInfoBlock`, anything else.  For the two item blocks, `value` is
`block.item.value`, which may be `None` (tombstoned CRDT entry). -/
inductive Block where
  | sceneLineItem (item_id : String) (value : Option Stroke)
  | sceneGlyphItem (item_id : String) (value : Option GlyphRange)
  | rootText (block_id : String) (value : TextRoot)
  | pageInfo
  | other (className : String)
deriving DecidableEq, Repr

/-- Python `str.strip()`: remove leading and trailing whitespace. -/
def pyStrip (s : String) : String :=
  ⟨((s.data.dropWhile Char.isWhitespace).reverse.dropWhile Char.isWhitespace).reverse⟩

/-- `SCREEN_WIDTH = 1404` (svg.py line 40). -/
def SCREEN_WIDTH : ℚ := 1404

/-- `SCREEN_HEIGHT = 1872` (svg.py line 41). -/
def SCREEN_HEIGHT : ℚ := 1872

/-- `XPOS_SHIFT = SCREEN_WIDTH / 2` (svg.py line 81). -/
def XPOS_SHIFT : ℚ := SCREEN_WIDTH / 2

/-- The `SvgDocInfo` dataclass (svg.py lines 84-89). -/
structure SvgDocInfo where
  height : ℚ
  width : ℚ
  xpos_delta : ℚ
  ypos_delta : ℚ
deriving DecidableEq, Repr

/-! ## Bounds calculator (`get_limits*`, `get_dimensions`) -/

/-- `get_limits_stroke` (svg.py lines 314-330): running min/max over the
stroke's points; returns all-`None` for an absent item or an empty point
list, modelled as `none`.  The Python update
`if xmin is None or xmin > xpos: xmin = xpos` (and the three analogues) is
the fold step. -/
def get_limits_stroke (value : Option Stroke) : Option (ℚ × ℚ × ℚ × ℚ) :=
  match value with
  | none => none
  | some item =>
    item.points.foldl
      (fun acc p =>
        match acc with
        | none => some (p.x, p.x, p.y, p.y)
        | some (xmin, xmax, ymin, ymax) =>
          some (if xmin > p.x then p.x else xmin,
                if xmax < p.x then p.x else xmax,
                if ymin > p.y then p.y else ymin,
                if ymax < p.y then p.y else ymax))
      none

/-- `get_limits_highlight` (svg.py lines 301-312): for a present item it
reads `item.rectangles[0]` unguarded — on an empty rectangle list this
raises `IndexError`, modelled as the outer `none`.  A present, nonempty
item yields `(x, x+w, y, y+h)` of the first rectangle; an absent item
yields the all-`None` tuple (inner `none`). -/
def get_limits_highlight (value : Option GlyphRange) :
    Option (Option (ℚ × ℚ × ℚ × ℚ)) :=
  match value with
  | none => some none
  | some item =>
    match item.rectangles with
    | [] => none
    | r :: _ => some (some (r.x, r.x + r.w, r.y, r.y + r.h))

/-- The accumulator update of `get_limits` (svg.py lines 289-298): skip an
all-`None` block result (`if xmin_tmp is None: continue`), otherwise merge
each bound with
`if xmin is None or xmin > xmin_tmp: xmin = xmin_tmp` and the analogues. -/
def mergeLimits (acc : Option (ℚ × ℚ × ℚ × ℚ)) (tmp : Option (ℚ × ℚ × ℚ × ℚ)) :
    Option (ℚ × ℚ × ℚ × ℚ) :=
  match tmp with
  | none => acc
  | some (a, b, c, d) =>
    match acc with
    | none => some (a, b, c, d)
    | some (xmin, xmax, ymin, ymax) =>
      some (if xmin > a then a else xmin,
            if xmax < b then b else xmax,
            if ymin > c then c else ymin,
            if ymax < d then d else ymax)

/-- `get_limits` (svg.py lines 276-299): fold over the blocks; stroke blocks
and glyph blocks contribute bounds, every other kind is skipped
(`continue`).  A glyph block whose bounds computation raises (empty
rectangle list) aborts the whole scan, modelled by the outer `Option`. -/
def get_limits (blocks : List Block) : Option (Option (ℚ × ℚ × ℚ × ℚ)) :=
  blocks.foldlM
    (fun acc block =>
      match block with
      | Block.sceneLineItem _ v => some (mergeLimits acc (get_limits_stroke v))
      | Block.sceneGlyphItem _ v =>
        (get_limits_highlight v).map (fun tmp => mergeLimits acc tmp)
      | _ => some acc)
    none

/-- `get_dimensions` (svg.py lines 341-378).
`width = math.ceil(xmax - xmin if xmin is not None and xmax is not None else 0)`,
`height` analogous; `xpos_delta = max(XPOS_SHIFT, width/2.0)`;
`ypos_delta = 0`; then `if ymin < 0: height += ymin`.
When no drawable block yielded bounds, `ymin` is `None` and the comparison
`ymin < 0` raises `TypeError` — modelled by returning `none`. -/
def get_dimensions (blocks : List Block) : Option SvgDocInfo :=
  match get_limits blocks with
  | none => none
  | some limits =>
    let width : ℚ := (⌈(match limits with
                        | some (xmin, xmax, _, _) => xmax - xmin
                        | none => 0)⌉ : ℤ)
    let height : ℚ := (⌈(match limits with
                         | some (_, _, ymin, ymax) => ymax - ymin
                         | none => 0)⌉ : ℤ)
    let xpos_delta : ℚ := max XPOS_SHIFT (width / 2)
    let ypos_delta : ℚ := 0
    match limits with
    | none => none
    | some (_, _, ymin, _) =>
      some { height := if ymin < 0 then height + ymin else height,
             width := width,
             xpos_delta := xpos_delta,
             ypos_delta := ypos_delta }

/-! ## Pen model

`Pen.create` and `remarkable_palette` live in `rmc/exporters/writing_tools.py`,
which is not part of the sources here; only their interface, as used by
`svg.py`, is modelled. -/

/-- Modelled from the spec: the `Pen` object of `writing_tools` (not under
`src/`).  `svg.py` uses exactly these members: `segment_length`,
`stroke_linecap`, `stroke_linejoin` and the three per-segment getters, each
taking `(speed, direction, width, pressure, last_segment_width)`. -/
structure Pen where
  segment_length : ℕ
  stroke_linecap : String
  stroke_linejoin : String
  get_segment_color : ℚ → ℚ → ℚ → ℚ → ℚ → String
  get_segment_width : ℚ → ℚ → ℚ → ℚ → ℚ → ℚ
  get_segment_opacity : ℚ → ℚ → ℚ → ℚ → ℚ → ℚ

/-! ## Renderer output model

Each write of the renderer becomes one `Frag`; consecutive unconditional
writes that build a single tag (the `<polyline ...` attribute writes of
svg.py lines 223-226) are merged into one `Frag`.  Numeric attribute values
are carried as the rationals the code interpolates. -/

/-- One written output fragment of the SVG renderer. -/
inductive Frag where
  /-- An `<!-- ... -->` comment line. -/
  | comment (s : String)
  /-- The `SVG_HEADER` template instantiated with height/width (line 110):
  opens `<svg>`; its interior (`<script>`, `<defs>` with the two filters) is
  a fixed, balanced constant. -/
  | header (height width : ℚ)
  /-- `<g id="p1" ...>` (line 114). -/
  | pageOpen
  /-- The `blurMe` filter line (line 115), a balanced element. -/
  | pageFilter
  /-- The debug vertical centerline (line 121), a self-closed element. -/
  | debugLine (x1 y1 x2 y2 : ℚ)
  /-- `<g>` opening a stroke group (line 196). -/
  | groupOpen
  /-- The `'"/>\n'` written at each segment start (line 222): closes the
  pending polyline tag, or is stray character data when none is pending. -/
  | strayClose
  /-- `<polyline [filter] style="..." ... points="` (lines 223-226): an
  unterminated start tag, pending until the next `strayClose`/`strokeEnd`. -/
  | polylineOpen (filter : String) (color : String) (width opacity : ℚ)
      (linecap linejoin : String)
  /-- One `'{x:.3f},{y:.3f} '` coordinate pair in a points attribute
  (lines 230 and 238), carried as the exact values. -/
  | vertex (x y : ℚ)
  /-- The final `'" /></g>\n'` of a stroke (line 241): terminates the
  pending polyline (or is stray data) and closes the stroke group. -/
  | strokeEnd
  /-- A highlight rectangle (line 163) with resolved fill rgb triple and
  the literal 0.5 fill-opacity. -/
  | rect (x y w h : ℚ) (fillRgb : List ℕ) (fillOpacity : ℚ)
  /-- The `<style>` block of `draw_text` (lines 251-255), balanced. -/
  | textStyle
  /-- A `<text x= y= ...>...</text>` element (line 273), balanced. -/
  | textElem (x y : ℚ) (content : String)
  /-- `'    </g>\n'` closing the page group (line 144). -/
  | pageClose
  /-- `'</svg>\n'` (line 146). -/
  | svgClose
deriving DecidableEq, Repr

/-! ## `draw_stroke` (svg.py lines 171-241) -/

/-- The loop-carried state of `draw_stroke`'s point loop:
`last_xpos`, `last_ypos`, `last_segment_width` (updated every iteration at
line 235) and the current `segment_width` (assigned at segment starts,
line 218). -/
structure StrokeState where
  last_xpos : ℚ
  last_ypos : ℚ
  last_segment_width : ℚ
  segment_width : ℚ
deriving DecidableEq, Repr

/-- Initial loop state (lines 198-200): `last_xpos = last_ypos = -1.`,
`last_segment_width = 0`; `segment_width` is unassigned in Python but is
always assigned at `point_id = 0` before being read, so its initial value
is irrelevant. -/
def strokeInit : StrokeState := ⟨-1, -1, 0, 0⟩

/-- One iteration of the point loop of `draw_stroke` (lines 202-238) at
index `point_id`: translate by the document offsets; at
`point_id % segment_length == 0` resolve the segment style and open a new
polyline (closing the previous one); emit the join vertex when
`last_xpos != -1.`; emit the current vertex; update the state. -/
def strokeStep (pen : Pen) (filt : String) (info : SvgDocInfo)
    (point_id : ℕ) (p : Point) (st : StrokeState) : List Frag × StrokeState :=
  let xpos := p.x + info.xpos_delta
  let ypos := p.y + info.ypos_delta
  let seg : List Frag × ℚ :=
    if point_id % pen.segment_length = 0 then
      let segment_color :=
        pen.get_segment_color p.speed p.direction p.width p.pressure st.last_segment_width
      let segment_width :=
        pen.get_segment_width p.speed p.direction p.width p.pressure st.last_segment_width
      let segment_opacity :=
        pen.get_segment_opacity p.speed p.direction p.width p.pressure st.last_segment_width
      ([Frag.strayClose,
        Frag.polylineOpen filt segment_color segment_width segment_opacity
          pen.stroke_linecap pen.stroke_linejoin],
       segment_width)
    else ([], st.segment_width)
  let joinFrags : List Frag :=
    if st.last_xpos ≠ -1 then [Frag.vertex st.last_xpos st.last_ypos] else []
  (seg.1 ++ joinFrags ++ [Frag.vertex xpos ypos],
   { last_xpos := xpos, last_ypos := ypos,
     last_segment_width := seg.2, segment_width := seg.2 })

/-- The whole point loop: fragments and final state. -/
def strokeRun (pen : Pen) (filt : String) (info : SvgDocInfo) :
    ℕ → StrokeState → List Point → List Frag × StrokeState
  | _, st, [] => ([], st)
  | point_id, st, p :: ps =>
    let step := strokeStep pen filt info point_id p st
    let rest := strokeRun pen filt info (point_id + 1) step.2 ps
    (step.1 ++ rest.1, rest.2)

/-- `draw_stroke` (lines 171-241), parametrized by `create` standing for
`Pen.create` of `writing_tools` (not under `src/`).  The item-id comment is
written before the absent-item check; a present item resolves the pen, the
texture filter for the two textured pencil tools, writes the stroke
comment and `<g>`, runs the point loop, and closes with `'" /></g>'`. -/
def draw_stroke (create : ℕ → ℕ → ℚ → Pen) (item_id : String)
    (value : Option Stroke) (info : SvgDocInfo) : List Frag :=
  Frag.comment ("SceneLineItemBlock item_id: " ++ item_id) ::
  match value with
  | none => []
  | some item =>
    let pen := create item.toolValue item.colorValue item.thickness_scale
    let filt : String :=
      if item.toolName = "MECHANICAL_PENCIL_2" then
        " filter=\"url(#mechPencilTexture)\" "
      else if item.toolName = "PENCIL_2" then
        " filter=\"url(#pencilTexture)\" "
      else ""
    Frag.comment ("Stroke tool: " ++ item.toolName ++ " color: " ++
        item.colorName) ::
    Frag.groupOpen ::
    (strokeRun pen filt info 0 strokeInit item.points).1 ++ [Frag.strokeEnd]

/-! ## `draw_highlight` (svg.py lines 148-169) -/

/-- `draw_highlight`, parametrized by `palette` standing for
`remarkable_palette` of `writing_tools` (not under `src/`).  An absent item
draws nothing; a present item writes the comment, then its diagnostic print
and the drawing both read `item.rectangles[0]` unguarded — an empty
rectangle list raises `IndexError` (`none`).  Otherwise one rectangle is
emitted at the first rectangle's corner translated by the document offsets,
with the palette fill and the literal 0.5 opacity. -/
def draw_highlight (palette : ℕ → List ℕ) (item_id : String)
    (value : Option GlyphRange) (info : SvgDocInfo) : Option (List Frag) :=
  match value with
  | none => some []
  | some item =>
    match item.rectangles with
    | [] => none
    | rectangle :: _ =>
      let color_values := palette item.colorValue
      let xpos := rectangle.x + info.xpos_delta
      let ypos := rectangle.y + info.ypos_delta
      some [Frag.comment ("SceneGlyphItemBlock (highlighter) item_id: " ++ item_id),
            Frag.rect xpos ypos rectangle.w rectangle.h color_values (1/2)]

/-! ## `draw_text` (svg.py lines 244-273) -/

/-- The per-item loop of `draw_text` (svg.py lines 266-273): a comment per
item and — when `text_item.value.strip()` is non-blank — a `<text>` element
at `(pos_x + width/2, pos_y + height/2)`. -/
def textItemsFrags (value : TextRoot) (info : SvgDocInfo) :
    List TextItem → List Frag
  | [] => []
  | text_item :: rest =>
    let xpos := value.pos_x + info.width / 2
    let ypos := value.pos_y + info.height / 2
    Frag.comment ("TextItem item_id: " ++ text_item.item_id) ::
    (if pyStrip text_item.value ≠ "" then
      [Frag.textElem xpos ypos (pyStrip text_item.text)]
    else []) ++ textItemsFrags value info rest

/-- `draw_text` (svg.py lines 244-273): the block comment, the fixed
`<style>` block, then the per-item loop. -/
def draw_text (block_id : String) (value : TextRoot) (info : SvgDocInfo) :
    List Frag :=
  Frag.comment ("RootTextBlock item_id: " ++ block_id) ::
  Frag.textStyle ::
  textItemsFrags value info value.items

/-! ## `blocks_to_svg` (svg.py lines 99-146) -/

/-- The per-block dispatch of `blocks_to_svg` (lines 123-137).
`PageInfoBlock` and unrecognized kinds only print diagnostics. -/
def drawBlock (create : ℕ → ℕ → ℚ → Pen) (palette : ℕ → List ℕ)
    (info : SvgDocInfo) (block : Block) : Option (List Frag) :=
  match block with
  | Block.sceneLineItem item_id v => some (draw_stroke create item_id v info)
  | Block.rootText block_id v => some (draw_text block_id v info)
  | Block.sceneGlyphItem item_id v => draw_highlight palette item_id v info
  | Block.pageInfo => some []
  | Block.other _ => some []

/-- `blocks_to_svg` (lines 99-146): compute `get_dimensions` (which may
raise, propagated as `none`), write the header, page group opening, blur
filter and debug centerline, then every block in input order, then the
closing comment/`</g>`/`</svg>`. -/
def blocks_to_svg (create : ℕ → ℕ → ℚ → Pen) (palette : ℕ → List ℕ)
    (blocks : List Block) : Option (List Frag) := do
  let info ← get_dimensions blocks
  let body ← blocks.foldlM
    (fun acc block => (drawBlock create palette info block).map (acc ++ ·)) []
  pure ([Frag.header info.height info.width, Frag.pageOpen, Frag.pageFilter,
         Frag.debugLine (info.width / 2) 0 (info.width / 2) info.height]
        ++ body
        ++ [Frag.comment "clickable rect to flip pages", Frag.pageClose,
            Frag.svgClose])

/-! ## Markdown exporter (`markdown.py`) -/

/-! Modelled from the spec: the `ParagraphStyle` enum of `rmscene`
(not under `src/`); the five recognized members compared against in
`print_text`, as distinct numeric tags. -/

namespace ParagraphStyle

def PLAIN : ℕ := 1
def HEADING : ℕ := 2
def BOLD : ℕ := 3
def BULLET : ℕ := 4
def BULLET2 : ℕ := 5

end ParagraphStyle

/-- The per-paragraph body of `print_text`'s loop (markdown.py lines
15-31).  Returns `(lines printed to fout, lines printed to stdout)`; each
list entry is the argument of one `print` call (its implicit trailing
newline not repeated).  A non-blank line with a recognized style goes to
`fout` with its prefix and an explicit extra `\n`; an unrecognized style or
a blank line goes to stdout only. -/
def print_text_paragraph (p : Paragraph) : List String × List String :=
  let style := p.styleValue
  let line := pyStrip p.text
  if line ≠ "" then
    if style = ParagraphStyle.BULLET then (["* " ++ line ++ "\n"], [])
    else if style = ParagraphStyle.BULLET2 then (["  * " ++ line ++ "\n"], [])
    else if style = ParagraphStyle.BOLD then (["**" ++ line ++ "**\n"], [])
    else if style = ParagraphStyle.HEADING then (["# " ++ line ++ "\n"], [])
    else if style = ParagraphStyle.PLAIN then ([line ++ "\n"], [])
    else ([], ["[unknown format " ++ toString style ++ "] " ++ line])
  else ([], ["[blank line " ++ toString style ++ "] " ++ line])

/-- `print_text` (markdown.py lines 8-31): for each `RootTextBlock`, print
the "processing" notice to stdout and process each reconstructed paragraph;
other block kinds are ignored.  Returns `(fout lines, stdout lines)`. -/
def print_text (blocks : List Block) : List String × List String :=
  blocks.foldl
    (fun acc block =>
      match block with
      | Block.rootText _ v =>
        v.contents.foldl
          (fun a p =>
            let o := print_text_paragraph p
            (a.1 ++ o.1, a.2 ++ o.2))
          (acc.1, acc.2 ++ ["processing text block"])
      | _ => acc)
    ([], [])

/-! ## Markup well-formedness

The renderer writes raw text; `wellFormed` checks that the written
fragment stream parses as properly nested, properly closed markup.  The
subtlety mirrored from the source: `<polyline ... points="` (written at
lines 223-226) is an *unterminated* start tag, completed only by the
`'"/>'` written at the next segment start (line 222) or by the final
`'" />'` (line 241); when no polyline tag is pending, those same writes are
plain character data (which is legal XML content). -/

/-- Parser state for `wellFormed`: open-tag stack, whether a `<polyline`
start tag is pending (unterminated), and whether the stream is still
well-formed. -/
structure WfState where
  stack : List String
  pending : Bool
  ok : Bool
deriving DecidableEq, Repr

def wfInit : WfState := ⟨[], false, true⟩

/-- Open a complete start tag: illegal while a start tag is pending. -/
def pushTag (s : WfState) (t : String) : WfState :=
  if s.pending then { s with ok := false } else { s with stack := t :: s.stack }

/-- Close the innermost element, which must match. -/
def popTag (s : WfState) (t : String) : WfState :=
  match s.stack with
  | u :: rest => if u = t then { s with stack := rest } else { s with ok := false }
  | [] => { s with ok := false }

/-- A self-contained (balanced or self-closed) piece of markup: illegal
while a start tag is pending. -/
def leafTag (s : WfState) : WfState :=
  if s.pending then { s with ok := false } else s

/-- One fragment of renderer output, interpreted by the markup parser. -/
def stepWf (s : WfState) (f : Frag) : WfState :=
  match f with
  | Frag.comment _ => leafTag s
  | Frag.header _ _ => pushTag s "svg"
  | Frag.pageOpen => pushTag s "g"
  | Frag.pageFilter => leafTag s
  | Frag.debugLine _ _ _ _ => leafTag s
  | Frag.groupOpen => pushTag s "g"
  | Frag.strayClose => if s.pending then { s with pending := false } else s
  | Frag.polylineOpen _ _ _ _ _ _ =>
    if s.pending then { s with ok := false } else { s with pending := true }
  | Frag.vertex _ _ => if s.pending then s else { s with ok := false }
  | Frag.strokeEnd => popTag { s with pending := false } "g"
  | Frag.rect _ _ _ _ _ _ => leafTag s
  | Frag.textStyle => leafTag s
  | Frag.textElem _ _ _ => leafTag s
  | Frag.pageClose => if s.pending then { s with ok := false } else popTag s "g"
  | Frag.svgClose => if s.pending then { s with ok := false } else popTag s "svg"

def runWf (s : WfState) (fs : List Frag) : WfState := fs.foldl stepWf s

/-- A fragment stream is well-formed markup: parsing it from the empty
state never fails, leaves no unterminated start tag and no open element. -/
def wellFormed (fs : List Frag) : Bool :=
  let s := runWf wfInit fs
  s.ok && !s.pending && s.stack.isEmpty

/-! ## Fragment classifiers and sub-path extraction -/

/-- Is this fragment the opening of a polyline sub-path? -/
def isPolylineOpen : Frag → Bool
  | Frag.polylineOpen _ _ _ _ _ _ => true
  | _ => false

/-- Is this fragment a points-attribute coordinate pair? -/
def isVertex : Frag → Bool
  | Frag.vertex _ _ => true
  | _ => false

/-- Split a fragment stream at polyline openings, collecting each
polyline's coordinate pairs; the head chunk (before any polyline) is
dropped by `subPaths`. -/
def subPathsFrom : List Frag → List (ℚ × ℚ) → List (List (ℚ × ℚ))
  | [], cur => [cur]
  | Frag.polylineOpen _ _ _ _ _ _ :: rest, cur => cur :: subPathsFrom rest []
  | Frag.vertex x y :: rest, cur => subPathsFrom rest (cur ++ [(x, y)])
  | _ :: rest, cur => subPathsFrom rest cur

/-- The emitted polyline sub-paths of a fragment stream, as their
coordinate-pair lists. -/
def subPaths (fs : List Frag) : List (List (ℚ × ℚ)) :=
  (subPathsFrom fs []).drop 1

/-! ## Segment-start counting

`draw_stroke` opens a new sub-path at every `point_id` with
`point_id % segment_length == 0`; `boundaryCount L pid m` counts those
indices among `pid, pid+1, ..., pid+m-1`. -/

def boundaryCount (L : ℕ) : ℕ → ℕ → ℕ
  | _, 0 => 0
  | pid, m + 1 => (if pid % L = 0 then 1 else 0) + boundaryCount L (pid + 1) m

/-- `boundaryCount` re-expressed by the distance `d` to the next segment
start. -/
def boundaryCountD (L : ℕ) : ℕ → ℕ → ℕ
  | _, 0 => 0
  | 0, m + 1 => 1 + boundaryCountD L (L - 1) m
  | d + 1, m + 1 => boundaryCountD L d m

/-! ## Concrete fixtures used by witnesses and counterexamples -/

/-- A concrete pen standing in for `Pen.create` output: ballpoint-like,
`segment_length = 2`. -/
def testPen : Pen :=
  { segment_length := 2, stroke_linecap := "round", stroke_linejoin := "round",
    get_segment_color := fun _ _ _ _ _ => "rgb(0, 0, 0)",
    get_segment_width := fun _ _ _ _ _ => 2,
    get_segment_opacity := fun _ _ _ _ _ => 1 }

/-- A concrete stand-in for `Pen.create` (writing_tools, not under
`src/`). -/
def testCreate : ℕ → ℕ → ℚ → Pen := fun _ _ _ => testPen

/-- A concrete stand-in for `remarkable_palette` (writing_tools, not under
`src/`). -/
def testPalette : ℕ → List ℕ := fun _ => [0, 0, 0]

/-- A sample with the given position and zero physical data. -/
def samplePoint (x y : ℚ) : Point :=
  { x := x, y := y, speed := 0, direction := 0, width := 0, pressure := 0 }

/-- A ballpoint-like 3-sample stroke used by concrete documents. -/
def demoStroke : Stroke :=
  { toolValue := 0, toolName := "BALLPOINT", colorValue := 0, colorName := "BLACK",
    thickness_scale := 1, points := [samplePoint 0 0, samplePoint 1 1, samplePoint 2 2] }

end Rmc

namespace Rmc

/-! ## Helper lemmas about the stroke loop -/

/-- Every coordinate pair written by one loop iteration is either the
stored previous position (the join, only when the sentinel test passes) or
the current sample's translated position. -/
lemma strokeStep_mem_vertex {pen : Pen} {filt : String} {info : SvgDocInfo}
    {pid : ℕ} {p : Point} {st : StrokeState} {x y : ℚ}
    (h : Frag.vertex x y ∈ (strokeStep pen filt info pid p st).1) :
    (x = st.last_xpos ∧ y = st.last_ypos ∧ st.last_xpos ≠ -1) ∨
    (x = p.x + info.xpos_delta ∧ y = p.y + info.ypos_delta) := by
  unfold strokeStep at h
  by_cases hb : pid % pen.segment_length = 0 <;>
    by_cases hj : st.last_xpos = -1 <;>
    simp [hb, hj] at h <;>
    tauto

/-- After one loop iteration the stored position is the current sample's
translated position. -/
lemma strokeStep_state (pen : Pen) (filt : String) (info : SvgDocInfo)
    (pid : ℕ) (p : Point) (st : StrokeState) :
    ((strokeStep pen filt info pid p st).2).last_xpos = p.x + info.xpos_delta ∧
    ((strokeStep pen filt info pid p st).2).last_ypos = p.y + info.ypos_delta := by
  unfold strokeStep
  by_cases hb : pid % pen.segment_length = 0 <;> simp [hb]

/-- Soundness: every coordinate pair in the loop's output is the
translation of some sample of `S`, provided the loop state stores either
the sentinel or a translated `S`-sample. -/
lemma strokeRun_vertex_sound (pen : Pen) (filt : String) (info : SvgDocInfo)
    (S : List Point) :
    ∀ (pts : List Point) (pid : ℕ) (st : StrokeState),
      (∀ p ∈ pts, p ∈ S) →
      (st.last_xpos = -1 ∨ ∃ p ∈ S, st.last_xpos = p.x + info.xpos_delta ∧
          st.last_ypos = p.y + info.ypos_delta) →
      ∀ x y, Frag.vertex x y ∈ (strokeRun pen filt info pid st pts).1 →
        ∃ p ∈ S, x = p.x + info.xpos_delta ∧ y = p.y + info.ypos_delta := by
  intro pts
  induction pts with
  | nil => intro pid st _ _ x y hmem; simp [strokeRun] at hmem
  | cons p ps ih =>
    intro pid st hsub hst x y hmem
    simp only [strokeRun] at hmem
    rcases List.mem_append.1 hmem with h1 | h2
    · rcases strokeStep_mem_vertex h1 with ⟨hx, hy, hne⟩ | ⟨hx, hy⟩
      · rcases hst with hm | ⟨q, hq, hqx, hqy⟩
        · exact absurd hm hne
        · exact ⟨q, hq, hx ▸ hqx, hy ▸ hqy⟩
      · exact ⟨p, hsub p (List.mem_cons_self p _), hx, hy⟩
    · refine ih (pid + 1) (strokeStep pen filt info pid p st).2
        (fun q hq => hsub q (List.mem_cons_of_mem _ hq)) ?_ x y h2
      right
      exact ⟨p, hsub p (List.mem_cons_self p _),
        (strokeStep_state pen filt info pid p st).1.symm ▸ rfl,
        (strokeStep_state pen filt info pid p st).2.symm ▸ rfl⟩

/-- Each loop iteration writes the current sample's translated position
(svg.py line 238), whatever the branch conditions. -/
lemma strokeStep_last_vertex (pen : Pen) (filt : String) (info : SvgDocInfo)
    (pid : ℕ) (p : Point) (st : StrokeState) :
    Frag.vertex (p.x + info.xpos_delta) (p.y + info.ypos_delta) ∈
      (strokeStep pen filt info pid p st).1 := by
  unfold strokeStep
  by_cases hb : pid % pen.segment_length = 0 <;>
    by_cases hj : st.last_xpos = -1 <;> simp [hb, hj]

/-- Completeness: every sample's translated position is written. -/
lemma strokeRun_vertex_complete (pen : Pen) (filt : String) (info : SvgDocInfo) :
    ∀ (pts : List Point) (pid : ℕ) (st : StrokeState) (i : ℕ) (h : i < pts.length),
      Frag.vertex ((pts.get ⟨i, h⟩).x + info.xpos_delta)
        ((pts.get ⟨i, h⟩).y + info.ypos_delta) ∈
        (strokeRun pen filt info pid st pts).1 := by
  intro pts
  induction pts with
  | nil => intro pid st i h; simp at h
  | cons p ps ih =>
    intro pid st i h
    simp only [strokeRun]
    match i with
    | 0 =>
      exact List.mem_append.2 (Or.inl (strokeStep_last_vertex pen filt info pid p st))
    | j + 1 =>
      exact List.mem_append.2 (Or.inr (ih (pid + 1) _ j (by simpa using h)))

/-- Every `<text>` element of the per-item loop is anchored at
`(pos_x + width/2, pos_y + height/2)`. -/
lemma textItemsFrags_coords (v : TextRoot) (info : SvgDocInfo) :
    ∀ (items : List TextItem) (x y : ℚ) (c : String),
      Frag.textElem x y c ∈ textItemsFrags v info items →
      x = v.pos_x + info.width / 2 ∧ y = v.pos_y + info.height / 2 := by
  intro items
  induction items with
  | nil => intro x y c h; simp [textItemsFrags] at h
  | cons ti ts ih =>
    intro x y c h
    simp only [textItemsFrags] at h
    rcases List.mem_cons.1 h with h1 | h1
    · exact absurd h1 (by simp)
    · rcases List.mem_append.1 h1 with h2 | h2
      · split at h2 <;> simp at h2
        exact ⟨h2.1, h2.2.1⟩
      · exact ih x y c h2

/-- Every `<text>` element emitted by `draw_text` is anchored at
`(pos_x + width/2, pos_y + height/2)`. -/
lemma draw_text_coords (block_id : String) (v : TextRoot) (info : SvgDocInfo) :
    ∀ x y c, Frag.textElem x y c ∈ draw_text block_id v info →
      x = v.pos_x + info.width / 2 ∧ y = v.pos_y + info.height / 2 := by
  intro x y c hmem
  simp only [draw_text, List.mem_cons] at hmem
  rcases hmem with h | h | h
  · exact absurd h (by simp)
  · exact absurd h (by simp)
  · exact textItemsFrags_coords v info v.items x y c h

/-! ## Helper lemmas about segment-start counting -/

lemma boundaryCountD_eq (L : ℕ) (hL : 1 ≤ L) :
    ∀ (m d : ℕ), d < L → boundaryCountD L d m = (m + (L - 1) - d) / L := by
  intro m
  induction m with
  | zero =>
    intro d hd
    simp only [boundaryCountD]
    rw [Nat.div_eq_of_lt (by omega)]
  | succ m ih =>
    intro d hd
    match d with
    | 0 =>
      rw [boundaryCountD, ih (L - 1) (by omega)]
      have h1 : m + (L - 1) - (L - 1) = m := by omega
      have h2 : m + 1 + (L - 1) - 0 = m + L := by omega
      rw [h1, h2, Nat.add_div_right _ hL]
      omega
    | d' + 1 =>
      rw [boundaryCountD, ih d' (by omega)]
      congr 1
      omega

lemma boundaryCount_eq_D (L : ℕ) (hL : 1 ≤ L) :
    ∀ (m pid : ℕ), boundaryCount L pid m = boundaryCountD L ((L - pid % L) % L) m := by
  intro m
  induction m with
  | zero => intro pid; simp only [boundaryCount, boundaryCountD]
  | succ m ih =>
    intro pid
    rw [boundaryCount, ih (pid + 1)]
    by_cases h0 : pid % L = 0
    · have hd : (L - pid % L) % L = 0 := by rw [h0, Nat.sub_zero, Nat.mod_self]
      rw [hd, h0, if_pos rfl, boundaryCountD]
      have hd1 : (L - (pid + 1) % L) % L = L - 1 := by
        rcases Nat.lt_or_ge 1 L with h | h
        · have h1 : (pid + 1) % L = 1 := by
            rw [Nat.add_mod, h0, Nat.zero_add]
            rw [Nat.mod_eq_of_lt h, Nat.mod_eq_of_lt h]
          rw [h1, Nat.mod_eq_of_lt (by omega)]
        · have hEq : L = 1 := by omega
          subst hEq
          simp [Nat.mod_one]
      rw [hd1]
    · have hr1 : 0 < pid % L := Nat.pos_of_ne_zero h0
      have hr2 : pid % L < L := Nat.mod_lt _ (by omega)
      have hd : (L - pid % L) % L = L - pid % L := Nat.mod_eq_of_lt (by omega)
      rw [hd, if_neg h0, Nat.zero_add]
      obtain ⟨d, hdd⟩ : ∃ d, L - pid % L = d + 1 := ⟨L - pid % L - 1, by omega⟩
      rw [hdd, boundaryCountD]
      have hmod : (pid + 1) % L = (pid % L + 1) % L := by
        rw [Nat.add_mod, Nat.mod_eq_of_lt (by omega : (1:ℕ) < L)]
      have hd1 : (L - (pid + 1) % L) % L = d := by
        rcases Nat.lt_or_ge (pid % L + 1) L with hlt | hge
        · rw [hmod, Nat.mod_eq_of_lt hlt, Nat.mod_eq_of_lt (by omega)]
          omega
        · have hEq : pid % L + 1 = L := by omega
          rw [hmod, hEq, Nat.mod_self, Nat.sub_zero, Nat.mod_self]
          omega
      rw [hd1]

/-- The number of segment starts among point ids `0, …, n-1` is
`⌈n / L⌉`. -/
lemma boundaryCount_zero (L : ℕ) (hL : 1 ≤ L) (n : ℕ) :
    boundaryCount L 0 n = (n + L - 1) / L := by
  rw [boundaryCount_eq_D L hL n 0]
  have h0 : (L - 0 % L) % L = 0 := by simp [Nat.mod_self]
  rw [h0, boundaryCountD_eq L hL n 0 (by omega)]
  congr 1
  omega

/-- One loop iteration opens a polyline exactly at segment starts. -/
lemma strokeStep_polyline_count (pen : Pen) (filt : String) (info : SvgDocInfo)
    (pid : ℕ) (p : Point) (st : StrokeState) :
    (strokeStep pen filt info pid p st).1.countP isPolylineOpen
      = if pid % pen.segment_length = 0 then 1 else 0 := by
  unfold strokeStep
  by_cases hb : pid % pen.segment_length = 0 <;>
    by_cases hj : st.last_xpos = -1 <;>
    simp [hb, hj, isPolylineOpen, List.countP_cons, List.countP_append]

/-- The loop opens `boundaryCount L pid n` polylines over `n` points
starting at id `pid`. -/
lemma strokeRun_polyline_count (pen : Pen) (filt : String) (info : SvgDocInfo) :
    ∀ (pts : List Point) (pid : ℕ) (st : StrokeState),
      (strokeRun pen filt info pid st pts).1.countP isPolylineOpen
        = boundaryCount pen.segment_length pid pts.length := by
  intro pts
  induction pts with
  | nil => intro pid st; simp [strokeRun, boundaryCount]
  | cons p ps ih =>
    intro pid st
    simp only [strokeRun, List.countP_append, List.length_cons]
    rw [strokeStep_polyline_count, ih, boundaryCount]

/-! ## Helper lemmas: loop decomposition -/

/-- The stroke loop over `l₁ ++ l₂` is the loop over `l₁` followed by the
loop over `l₂` from the reached state, with the point ids advanced. -/
lemma strokeRun_append (pen : Pen) (filt : String) (info : SvgDocInfo) :
    ∀ (l₁ l₂ : List Point) (pid : ℕ) (st : StrokeState),
      strokeRun pen filt info pid st (l₁ ++ l₂) =
        ((strokeRun pen filt info pid st l₁).1 ++
          (strokeRun pen filt info (pid + l₁.length)
            (strokeRun pen filt info pid st l₁).2 l₂).1,
         (strokeRun pen filt info (pid + l₁.length)
            (strokeRun pen filt info pid st l₁).2 l₂).2) := by
  intro l₁
  induction l₁ with
  | nil => intro l₂ pid st; simp [strokeRun]
  | cons p ps ih =>
    intro l₂ pid st
    have hstep : strokeRun pen filt info pid st (p :: (ps ++ l₂))
        = ((strokeStep pen filt info pid p st).1 ++
            (strokeRun pen filt info (pid + 1)
              (strokeStep pen filt info pid p st).2 (ps ++ l₂)).1,
           (strokeRun pen filt info (pid + 1)
              (strokeStep pen filt info pid p st).2 (ps ++ l₂)).2) := rfl
    have hstep2 : strokeRun pen filt info pid st (p :: ps)
        = ((strokeStep pen filt info pid p st).1 ++
            (strokeRun pen filt info (pid + 1)
              (strokeStep pen filt info pid p st).2 ps).1,
           (strokeRun pen filt info (pid + 1)
              (strokeStep pen filt info pid p st).2 ps).2) := rfl
    rw [List.cons_append, hstep, ih, hstep2]
    simp only [List.length_cons]
    rw [show pid + 1 + ps.length = pid + (ps.length + 1) from by omega]
    rw [List.append_assoc]

/-- After the loop has processed a nonempty point list, the stored
`last_xpos` is the translated x of the last processed sample. -/
lemma strokeRun_last_state (pen : Pen) (filt : String) (info : SvgDocInfo) :
    ∀ (l : List Point) (pid : ℕ) (st : StrokeState) (h : l ≠ []),
      ((strokeRun pen filt info pid st l).2).last_xpos
        = (l.getLast h).x + info.xpos_delta := by
  intro l
  induction l with
  | nil => intro pid st h; exact absurd rfl h
  | cons p ps ih =>
    intro pid st h
    cases ps with
    | nil =>
      have hstep : (strokeRun pen filt info pid st [p]).2
          = (strokeStep pen filt info pid p st).2 := rfl
      rw [hstep, List.getLast_singleton]
      exact (strokeStep_state pen filt info pid p st).1
    | cons q qs =>
      have hstep : (strokeRun pen filt info pid st (p :: q :: qs)).2
          = (strokeRun pen filt info (pid + 1)
              (strokeStep pen filt info pid p st).2 (q :: qs)).2 := rfl
      rw [hstep, ih (pid + 1) (strokeStep pen filt info pid p st).2 (by simp)]
      conv_rhs => rw [List.getLast_cons (by simp : (q :: qs) ≠ [])]

/-! ## Helper lemmas: markup well-formedness -/

lemma runWf_append (s : WfState) (l₁ l₂ : List Frag) :
    runWf s (l₁ ++ l₂) = runWf (runWf s l₁) l₂ := by
  simp [runWf, List.foldl_append]

lemma runWf_cons (s : WfState) (f : Frag) (fs : List Frag) :
    runWf s (f :: fs) = runWf (stepWf s f) fs := rfl

/-- A segment-start iteration leaves the tag stack unchanged and a pending
polyline tag, whatever the incoming pending state. -/
lemma wfStrokeStep_boundary (pen : Pen) (filt : String) (info : SvgDocInfo)
    (pid : ℕ) (p : Point) (st : StrokeState) (stk : List String) (b : Bool)
    (hb : pid % pen.segment_length = 0) :
    runWf ⟨stk, b, true⟩ (strokeStep pen filt info pid p st).1 = ⟨stk, true, true⟩ := by
  cases b <;>
    by_cases hj : st.last_xpos = -1 <;>
    simp [strokeStep, hb, hj, runWf, stepWf, leafTag, pushTag, popTag]

/-- Any iteration keeps the parser in the pending-polyline state. -/
lemma wfStrokeStep_pending (pen : Pen) (filt : String) (info : SvgDocInfo)
    (pid : ℕ) (p : Point) (st : StrokeState) (stk : List String) :
    runWf ⟨stk, true, true⟩ (strokeStep pen filt info pid p st).1 = ⟨stk, true, true⟩ := by
  by_cases hb : pid % pen.segment_length = 0 <;>
    by_cases hj : st.last_xpos = -1 <;>
    simp [strokeStep, hb, hj, runWf, stepWf, leafTag, pushTag, popTag]

lemma wfStrokeRun_pending (pen : Pen) (filt : String) (info : SvgDocInfo) :
    ∀ (pts : List Point) (pid : ℕ) (st : StrokeState) (stk : List String),
      runWf ⟨stk, true, true⟩ (strokeRun pen filt info pid st pts).1 = ⟨stk, true, true⟩ := by
  intro pts
  induction pts with
  | nil => intro pid st stk; simp [strokeRun, runWf]
  | cons p ps ih =>
    intro pid st stk
    have hstep : (strokeRun pen filt info pid st (p :: ps)).1
        = (strokeStep pen filt info pid p st).1 ++
          (strokeRun pen filt info (pid + 1) (strokeStep pen filt info pid p st).2 ps).1 := rfl
    rw [hstep, runWf_append, wfStrokeStep_pending, ih]

/-- The loop's output followed by the closing `'" /></g>'` write parses
back to the enclosing state, with the stroke group closed. -/
lemma wfStrokeTail (pen : Pen) (filt : String) (info : SvgDocInfo)
    (pts : List Point) (stk : List String) :
    runWf ⟨"g" :: stk, false, true⟩
        ((strokeRun pen filt info 0 strokeInit pts).1 ++ [Frag.strokeEnd])
      = ⟨stk, false, true⟩ := by
  cases pts with
  | nil => simp [strokeRun, runWf, stepWf, popTag]
  | cons p ps =>
    have hrun : (strokeRun pen filt info 0 strokeInit (p :: ps)).1
        = (strokeStep pen filt info 0 p strokeInit).1 ++
          (strokeRun pen filt info 1 (strokeStep pen filt info 0 p strokeInit).2 ps).1 := rfl
    rw [hrun, List.append_assoc, runWf_append,
        wfStrokeStep_boundary _ _ _ _ _ _ _ _ (Nat.zero_mod _),
        runWf_append, wfStrokeRun_pending]
    simp [runWf, stepWf, popTag]

/-- `draw_stroke` output is neutral for the markup parser. -/
lemma wfDrawStroke (create : ℕ → ℕ → ℚ → Pen) (item_id : String)
    (v : Option Stroke) (info : SvgDocInfo) (stk : List String) :
    runWf ⟨stk, false, true⟩ (draw_stroke create item_id v info) = ⟨stk, false, true⟩ := by
  cases v with
  | none => simp [draw_stroke, runWf, stepWf, leafTag]
  | some item =>
    simp only [draw_stroke, List.cons_append]
    rw [runWf_cons, runWf_cons, runWf_cons]
    have h1 : stepWf (⟨stk, false, true⟩ : WfState)
        (Frag.comment ("SceneLineItemBlock item_id: " ++ item_id)) = ⟨stk, false, true⟩ := by
      simp [stepWf, leafTag]
    have h2 : stepWf (⟨stk, false, true⟩ : WfState)
        (Frag.comment ("Stroke tool: " ++ item.toolName ++ " color: " ++ item.colorName))
        = ⟨stk, false, true⟩ := by
      simp [stepWf, leafTag]
    have h3 : stepWf (⟨stk, false, true⟩ : WfState) Frag.groupOpen
        = ⟨"g" :: stk, false, true⟩ := by
      simp [stepWf, pushTag]
    rw [h1, h2, h3]
    exact wfStrokeTail _ _ _ _ _

lemma wfTextItems (v : TextRoot) (info : SvgDocInfo) (stk : List String) :
    ∀ (items : List TextItem),
      runWf ⟨stk, false, true⟩ (textItemsFrags v info items) = ⟨stk, false, true⟩ := by
  intro items
  induction items with
  | nil => simp [textItemsFrags, runWf]
  | cons ti ts ih =>
    simp only [textItemsFrags]
    rw [List.cons_append, runWf_cons]
    have h1 : stepWf (⟨stk, false, true⟩ : WfState)
        (Frag.comment ("TextItem item_id: " ++ ti.item_id)) = ⟨stk, false, true⟩ := by
      simp [stepWf, leafTag]
    rw [h1]
    by_cases hv : pyStrip ti.value ≠ ""
    · rw [if_pos hv, List.singleton_append, runWf_cons]
      have h2 : stepWf (⟨stk, false, true⟩ : WfState)
          (Frag.textElem (v.pos_x + info.width / 2) (v.pos_y + info.height / 2)
            (pyStrip ti.text)) = ⟨stk, false, true⟩ := by
        simp [stepWf, leafTag]
      rw [h2]
      exact ih
    · rw [if_neg hv, List.nil_append]
      exact ih

lemma wfDrawText (block_id : String) (v : TextRoot) (info : SvgDocInfo)
    (stk : List String) :
    runWf ⟨stk, false, true⟩ (draw_text block_id v info) = ⟨stk, false, true⟩ := by
  simp only [draw_text]
  rw [runWf_cons, runWf_cons]
  have h1 : stepWf (⟨stk, false, true⟩ : WfState)
      (Frag.comment ("RootTextBlock item_id: " ++ block_id)) = ⟨stk, false, true⟩ := by
    simp [stepWf, leafTag]
  have h2 : stepWf (⟨stk, false, true⟩ : WfState) Frag.textStyle = ⟨stk, false, true⟩ := by
    simp [stepWf, leafTag]
  rw [h1, h2]
  exact wfTextItems v info stk v.items

/-- Every block's fragment output is neutral for the markup parser. -/
lemma wfDrawBlock (create : ℕ → ℕ → ℚ → Pen) (palette : ℕ → List ℕ)
    (info : SvgDocInfo) (block : Block) (frags : List Frag) (stk : List String)
    (h : drawBlock create palette info block = some frags) :
    runWf ⟨stk, false, true⟩ frags = ⟨stk, false, true⟩ := by
  cases block with
  | sceneLineItem item_id v =>
    simp only [drawBlock, Option.some.injEq] at h
    rw [← h]
    exact wfDrawStroke create item_id v info stk
  | rootText block_id v =>
    simp only [drawBlock, Option.some.injEq] at h
    rw [← h]
    exact wfDrawText block_id v info stk
  | sceneGlyphItem item_id v =>
    simp only [drawBlock] at h
    cases v with
    | none =>
      simp only [draw_highlight, Option.some.injEq] at h
      rw [← h]
      rfl
    | some item =>
      cases hr : item.rectangles with
      | nil => rw [draw_highlight, hr] at h; exact absurd h (by simp)
      | cons r rs =>
        rw [draw_highlight, hr] at h
        simp only [Option.some.injEq] at h
        rw [← h]
        simp [runWf, stepWf, leafTag]
  | pageInfo =>
    simp only [drawBlock, Option.some.injEq] at h
    rw [← h]
    rfl
  | other c =>
    simp only [drawBlock, Option.some.injEq] at h
    rw [← h]
    rfl

/-- The concatenated per-block output of the draw pass is neutral for the
markup parser. -/
lemma wfBody (create : ℕ → ℕ → ℚ → Pen) (palette : ℕ → List ℕ) (info : SvgDocInfo) :
    ∀ (blocks : List Block) (acc body : List Frag) (stk : List String),
      blocks.foldlM
        (fun acc block => (drawBlock create palette info block).map (acc ++ ·)) acc
        = some body →
      runWf ⟨stk, false, true⟩ acc = ⟨stk, false, true⟩ →
      runWf ⟨stk, false, true⟩ body = ⟨stk, false, true⟩ := by
  intro blocks
  induction blocks with
  | nil =>
    intro acc body stk h hacc
    simp only [List.foldlM_nil] at h
    cases h
    exact hacc
  | cons b bs ih =>
    intro acc body stk h hacc
    rw [List.foldlM_cons] at h
    cases hdb : drawBlock create palette info b with
    | none => rw [hdb] at h; simp at h
    | some fs =>
      rw [hdb] at h
      exact ih (acc ++ fs) body stk (by simpa using h)
        (by rw [runWf_append, hacc, wfDrawBlock create palette info b fs stk hdb])

/-! # Claims -/

/-- **C1** (code_bug evidence).  The spec says a blank page (no drawable
block yields bounds) gives `width = height = 0` and a well-formed empty
document without error.  In the code, `get_limits` then leaves `ymin =
None`, and `get_dimensions` line 362 evaluates `ymin < 0`, raising
`TypeError`; `blocks_to_svg` therefore also fails before writing anything.
This theorem evaluates the code at an empty block list and at a list with
only absent-`Item` drawables. -/
theorem c1_blank_page_crash :
    get_dimensions ([] : List Block) = none ∧
    get_dimensions [Block.sceneLineItem "a" none, Block.sceneGlyphItem "b" none] = none ∧
    blocks_to_svg testCreate testPalette [] = none ∧
    blocks_to_svg testCreate testPalette
      [Block.sceneLineItem "a" none, Block.sceneGlyphItem "b" none] = none := by
  refine ⟨rfl, ?_, rfl, ?_⟩ <;>
    norm_num [get_dimensions, get_limits, get_limits_stroke, get_limits_highlight,
      mergeLimits, blocks_to_svg]

/-- A text document whose only paragraph has an unrecognized style tag and
non-blank text. -/
def c5Blocks : List Block :=
  [Block.rootText "t"
    { pos_x := 0, pos_y := 0, items := [],
      contents := [{ styleValue := 99, text := "Hi" }] }]

/-- **C5** (counterexample).  The claim says a non-blank paragraph with an
unrecognized style is emitted to the output document as plain text (and
additionally warned about), never absent from the output.  On the block
above, `print_text` writes *nothing* to `fout` (first component `= []`):
the unknown-style branch (markdown.py line 29) prints the diagnostic to
stdout only, so the paragraph is absent from the output document. -/
theorem c5_unknown_style_dropped :
    print_text c5Blocks = ([], ["processing text block", "[unknown format 99] Hi"]) := by
  decide

/-- **C5** (amended).  For every paragraph with non-blank stripped text and
a style tag that is none of the five recognized styles, the formatter
emits nothing to the output document and reports a single diagnostic
containing the style tag and the paragraph's text. -/
theorem c5_unknown_style_amended (p : Paragraph)
    (hline : pyStrip p.text ≠ "")
    (h1 : p.styleValue ≠ ParagraphStyle.BULLET)
    (h2 : p.styleValue ≠ ParagraphStyle.BULLET2)
    (h3 : p.styleValue ≠ ParagraphStyle.BOLD)
    (h4 : p.styleValue ≠ ParagraphStyle.HEADING)
    (h5 : p.styleValue ≠ ParagraphStyle.PLAIN) :
    print_text_paragraph p =
      ([], ["[unknown format " ++ toString p.styleValue ++ "] " ++ pyStrip p.text]) := by
  simp [print_text_paragraph, hline, h1, h2, h3, h4, h5]

/-- **C5** witness: the amended statement at the concrete paragraph
`(style 99, "Hi")`. -/
theorem c5_unknown_style_witness :
    print_text_paragraph { styleValue := 99, text := "Hi" } =
      ([], ["[unknown format 99] Hi"]) := by
  have h := c5_unknown_style_amended { styleValue := 99, text := "Hi" }
    (by decide) (by decide) (by decide) (by decide) (by decide) (by decide)
  simpa using h

/-- **C6**.  For every highlight block with a present item and a first
rectangle, `draw_highlight` emits exactly one filled rectangle, at the
first rectangle's corner translated by the document offset pair, with the
rectangle's width and height, filled with the palette color of the item's
color index at the literal 0.5 fill-opacity. -/
theorem c6_highlight_rect (palette : ℕ → List ℕ) (item_id : String)
    (item : GlyphRange) (info : SvgDocInfo) (r : Rectangle) (rs : List Rectangle)
    (h : item.rectangles = r :: rs) :
    draw_highlight palette item_id (some item) info =
      some [Frag.comment ("SceneGlyphItemBlock (highlighter) item_id: " ++ item_id),
            Frag.rect (r.x + info.xpos_delta) (r.y + info.ypos_delta) r.w r.h
              (palette item.colorValue) (1/2)] := by
  simp [draw_highlight, h]

/-- The highlight of end-to-end scenario 2: a single rectangle
`(x=10, y=20, w=5, h=2)`. -/
def scnGlyph : GlyphRange :=
  { length := 4, text := "mark", colorValue := 3, colorName := "YELLOW",
    rectangles := [{ x := 10, y := 20, w := 5, h := 2 }] }

/-- Document offsets `(702, 0)` of scenario 2. -/
def scnInfo : SvgDocInfo := { height := 100, width := 100, xpos_delta := 702, ypos_delta := 0 }

/-- **C6** witness: scenario 2 — rectangle `(10, 20, 5, 2)` with offsets
`(702, 0)` yields one rectangle at `(712, 20)` sized `5 × 2` at 0.5
opacity. -/
theorem c6_highlight_rect_witness :
    draw_highlight testPalette "h1" (some scnGlyph) scnInfo =
      some [Frag.comment "SceneGlyphItemBlock (highlighter) item_id: h1",
            Frag.rect 712 20 5 2 [0, 0, 0] (1/2)] := by
  have h := c6_highlight_rect testPalette "h1" scnGlyph scnInfo
    { x := 10, y := 20, w := 5, h := 2 } [] rfl
  rw [h]
  norm_num [scnInfo, scnGlyph, testPalette]
  decide

/-- **C10**.  For a highlight block with a present item: when the
rectangle sequence is empty, both the bounds scan (`get_limits_highlight`)
and the drawing (`draw_highlight`) read `item.rectangles[0]` unguarded and
raise `IndexError` (modelled `none`); when at least one rectangle is
present, neither raises. -/
theorem c10_empty_rectangles_raise (palette : ℕ → List ℕ) (item_id : String)
    (item : GlyphRange) (info : SvgDocInfo) :
    (item.rectangles = [] →
      get_limits_highlight (some item) = none ∧
      draw_highlight palette item_id (some item) info = none) ∧
    (item.rectangles ≠ [] →
      (get_limits_highlight (some item)).isSome = true ∧
      (draw_highlight palette item_id (some item) info).isSome = true) := by
  constructor
  · intro h
    simp [get_limits_highlight, draw_highlight, h]
  · intro h
    match hr : item.rectangles with
    | [] => exact absurd hr h
    | r :: rs => simp [get_limits_highlight, draw_highlight, hr]

/-- A present highlight item whose rectangle sequence is empty. -/
def emptyGlyph : GlyphRange :=
  { length := 0, text := "", colorValue := 0, colorName := "BLACK", rectangles := [] }

/-- **C10** witness: at the concrete empty-rectangles item, both functions
raise. -/
theorem c10_empty_rectangles_witness :
    get_limits_highlight (some emptyGlyph) = none ∧
    draw_highlight testPalette "h2" (some emptyGlyph) scnInfo = none := by
  exact (c10_empty_rectangles_raise testPalette "h2" emptyGlyph scnInfo).1 rfl

/-- A one-stroke document: bounds `(0,0)–(2,2)`, so `width = height = 2`,
`xpos_delta = max(702, 1) = 702`, `ypos_delta = 0`. -/
def demoBlocks : List Block := [Block.sceneLineItem "a" (some demoStroke)]

/-- The same document plus a text block anchored at `(0, 0)` with one
non-blank text item. -/
def c2Blocks : List Block :=
  [Block.sceneLineItem "a" (some demoStroke),
   Block.rootText "t"
     { pos_x := 0, pos_y := 0,
       items := [{ item_id := "i1", value := "Hi", text := "Hi" }],
       contents := [] }]

/-- **C2** (counterexample).  The claim says the single shared offset pair
`(xpos_delta, ypos_delta)` is applied to all block kinds *including text
blocks*.  On `c2Blocks` the shared pair is `(702, 0)`, so the text item
anchored at `(0, 0)` would be emitted at `(702, 0)`; the renderer instead
emits it at `(0 + width/2, 0 + height/2) = (1, 1)` (svg.py lines 269-270),
and no element at `(702, 0)` exists in the output. -/
theorem c2_shared_offset_counterexample :
    get_dimensions c2Blocks
      = some { height := 2, width := 2, xpos_delta := 702, ypos_delta := 0 } ∧
    Frag.textElem 1 1 "Hi" ∈ (blocks_to_svg testCreate testPalette c2Blocks).getD [] ∧
    Frag.textElem 702 0 "Hi" ∉ (blocks_to_svg testCreate testPalette c2Blocks).getD [] := by
  refine ⟨?_, ?_, ?_⟩ <;>
    norm_num +decide [blocks_to_svg, get_dimensions, get_limits, get_limits_stroke,
      mergeLimits, c2Blocks, demoStroke, samplePoint, XPOS_SHIFT, SCREEN_WIDTH, drawBlock,
      draw_stroke, draw_text, textItemsFrags, strokeRun, strokeStep, strokeInit,
      testCreate, testPen, pyStrip]

/-- **C2** (amended).  For every document offset pair: (1) every stroke
sample's translated position `(x + xpos_delta, y + ypos_delta)` is emitted,
and (2) every emitted stroke coordinate pair is the translation of some
sample by exactly that shared pair; (3) a highlight's first rectangle is
emitted translated by the same shared pair; but (4) text elements are
anchored at `(pos_x + width/2, pos_y + height/2)`, a different convention
from the shared offset pair. -/
theorem c2_offsets_amended (info : SvgDocInfo) :
    (∀ (pen : Pen) (filt : String) (pts : List Point) (i : ℕ) (h : i < pts.length),
      Frag.vertex ((pts.get ⟨i, h⟩).x + info.xpos_delta)
        ((pts.get ⟨i, h⟩).y + info.ypos_delta) ∈
        (strokeRun pen filt info 0 strokeInit pts).1) ∧
    (∀ (pen : Pen) (filt : String) (pts : List Point) (x y : ℚ),
      Frag.vertex x y ∈ (strokeRun pen filt info 0 strokeInit pts).1 →
      ∃ p ∈ pts, x = p.x + info.xpos_delta ∧ y = p.y + info.ypos_delta) ∧
    (∀ (palette : ℕ → List ℕ) (item_id : String) (item : GlyphRange)
        (r : Rectangle) (rs : List Rectangle), item.rectangles = r :: rs →
      draw_highlight palette item_id (some item) info =
        some [Frag.comment ("SceneGlyphItemBlock (highlighter) item_id: " ++ item_id),
              Frag.rect (r.x + info.xpos_delta) (r.y + info.ypos_delta) r.w r.h
                (palette item.colorValue) (1/2)]) ∧
    (∀ (block_id : String) (v : TextRoot) (x y : ℚ) (c : String),
      Frag.textElem x y c ∈ draw_text block_id v info →
      x = v.pos_x + info.width / 2 ∧ y = v.pos_y + info.height / 2) := by
  refine ⟨?_, ?_, ?_, ?_⟩
  · intro pen filt pts i h
    exact strokeRun_vertex_complete pen filt info pts 0 strokeInit i h
  · intro pen filt pts x y hmem
    exact strokeRun_vertex_sound pen filt info pts pts 0 strokeInit
      (fun q hq => hq) (Or.inl rfl) x y hmem
  · intro palette item_id item r rs hr
    simp [draw_highlight, hr]
  · intro block_id v x y c hmem
    exact draw_text_coords block_id v info x y c hmem

/-- **C2** witness: the amended statement at the first sample of the demo
stroke, with the shared pair `(702, 0)`. -/
theorem c2_offsets_witness :
    Frag.vertex ((0:ℚ) + 702) ((0:ℚ) + 0) ∈
      (strokeRun testPen "" scnInfo 0 strokeInit demoStroke.points).1 := by
  have h := (c2_offsets_amended scnInfo).1 testPen "" demoStroke.points 0
    (by norm_num [demoStroke])
  simpa [demoStroke, samplePoint, scnInfo] using h

/-- **C3**.  For every stroke, the number of emitted polyline sub-paths is
`⌈sampleCount / segment_length⌉` (as naturals, `(n + L - 1) / L`); and in
end-to-end scenario 1 — 3 samples, `segment_length = 2`, offsets
`(702, 0)` — the stroke group contains exactly 2 sub-paths: the first
covering samples 0 and 1 (its vertex list repeats each previous position,
so it reads `p0 p0 p1`), the second covering the remaining 1 sample
(joined as `p1 p2`). -/
theorem c3_subpath_count (create : ℕ → ℕ → ℚ → Pen) (item_id : String)
    (item : Stroke) (info : SvgDocInfo)
    (_h1 : 1 ≤ item.points.length)
    (hL : 1 ≤ (create item.toolValue item.colorValue item.thickness_scale).segment_length) :
    (draw_stroke create item_id (some item) info).countP isPolylineOpen
      = (item.points.length +
          (create item.toolValue item.colorValue item.thickness_scale).segment_length - 1) /
        (create item.toolValue item.colorValue item.thickness_scale).segment_length ∧
    subPaths (draw_stroke testCreate "s1" (some demoStroke) scnInfo)
      = [[(702, 0), (702, 0), (703, 1)], [(703, 1), (704, 2)]] := by
  constructor
  · simp only [draw_stroke, List.countP_cons, List.countP_append]
    rw [strokeRun_polyline_count, boundaryCount_zero _ hL]
    simp [isPolylineOpen]
  · norm_num [subPaths, subPathsFrom, draw_stroke, strokeRun, strokeStep, strokeInit,
      demoStroke, scnInfo, testCreate, testPen, samplePoint]

/-- **C3** witness: the demo stroke (3 samples, `segment_length = 2`)
yields exactly `⌈3/2⌉ = 2` sub-paths. -/
theorem c3_subpath_count_witness :
    (draw_stroke testCreate "s1" (some demoStroke) scnInfo).countP isPolylineOpen = 2 := by
  have h := (c3_subpath_count testCreate "s1" demoStroke scnInfo
    (by norm_num [demoStroke]) (by norm_num [testCreate, testPen])).1
  rw [h]
  norm_num [demoStroke, testCreate, testPen]

/-- **C4**.  For every block sequence on which the renderer completes (the
output is `some`), the emitted document is properly nested and closed
markup: the `SVG_HEADER`, page group, per-block fragments and the closing
`</g></svg>` parse with a matching tag stack, every `<polyline ...
points="` start tag is terminated before any other markup, and no tag
remains open at the end. -/
theorem c4_output_well_formed (create : ℕ → ℕ → ℚ → Pen) (palette : ℕ → List ℕ)
    (blocks : List Block) (frags : List Frag)
    (_hL : ∀ t c th, 1 ≤ (create t c th).segment_length)
    (hout : blocks_to_svg create palette blocks = some frags) :
    wellFormed frags = true := by
  unfold blocks_to_svg at hout
  cases hdim : get_dimensions blocks with
  | none => rw [hdim] at hout; exact absurd hout (by simp)
  | some info =>
    rw [hdim] at hout
    simp only [Option.bind_eq_bind, Option.some_bind] at hout
    cases hbody : blocks.foldlM
        (fun acc block => (drawBlock create palette info block).map (acc ++ ·)) [] with
    | none => rw [hbody] at hout; exact absurd hout (by simp)
    | some body =>
      rw [hbody] at hout
      simp only [Option.some_bind, Option.pure_def, Option.some.injEq] at hout
      subst hout
      unfold wellFormed
      rw [runWf_append, runWf_append]
      have hpre : runWf wfInit
          [Frag.header info.height info.width, Frag.pageOpen, Frag.pageFilter,
           Frag.debugLine (info.width / 2) 0 (info.width / 2) info.height]
          = ⟨["g", "svg"], false, true⟩ := by
        simp [wfInit, runWf, stepWf, leafTag, pushTag]
      rw [hpre]
      rw [wfBody create palette info blocks [] body ["g", "svg"] hbody rfl]
      simp [runWf, stepWf, leafTag, popTag]

/-- **C4** witness: the mixed stroke + text document renders to
well-formed markup. -/
theorem c4_output_well_formed_witness :
    (blocks_to_svg testCreate testPalette c2Blocks).map wellFormed = some true := by
  have hsome : (blocks_to_svg testCreate testPalette c2Blocks).isSome = true := by
    norm_num +decide [blocks_to_svg, get_dimensions, get_limits, get_limits_stroke,
      mergeLimits, c2Blocks, demoStroke, samplePoint, XPOS_SHIFT, SCREEN_WIDTH, drawBlock,
      draw_stroke, draw_text, textItemsFrags, strokeRun, strokeStep, strokeInit,
      testCreate, testPen, pyStrip]
  obtain ⟨F, hF⟩ := Option.isSome_iff_exists.1 hsome
  rw [hF]
  exact congrArg some (c4_output_well_formed testCreate testPalette c2Blocks F
    (fun _ _ _ => by norm_num [testCreate, testPen]) hF)

/-- **C7**.  For every document whose dimensions are computed,
`xpos_delta = max(702, width/2)` with `702 = XPOS_SHIFT = 1404/2`; and
consequently, when all samples of a stroke satisfy `x ≥ -702`, every
x-coordinate the stroke loop emits for them is non-negative. -/
theorem c7_x_offset (blocks : List Block) (info : SvgDocInfo) (pen : Pen)
    (filt : String) (pts : List Point)
    (hdim : get_dimensions blocks = some info) :
    info.xpos_delta = max 702 (info.width / 2) ∧
    ((∀ p ∈ pts, (-702:ℚ) ≤ p.x) →
      ∀ x y, Frag.vertex x y ∈ (strokeRun pen filt info 0 strokeInit pts).1 → 0 ≤ x) := by
  have hx : info.xpos_delta = max 702 (info.width / 2) := by
    unfold get_dimensions at hdim
    rcases hL : get_limits blocks with _ | limits <;> rw [hL] at hdim
    · exact absurd hdim (by simp)
    rcases limits with _ | ⟨a, b, c, d⟩
    · exact absurd hdim (by simp)
    · simp only [Option.some.injEq] at hdim
      split at hdim <;> (cases hdim; norm_num [XPOS_SHIFT, SCREEN_WIDTH])
  refine ⟨hx, ?_⟩
  intro hge x y hmem
  obtain ⟨p, hp, hxe, _⟩ := strokeRun_vertex_sound pen filt info pts pts 0 strokeInit
    (fun q hq => hq) (Or.inl rfl) x y hmem
  have h1 : (702:ℚ) ≤ info.xpos_delta := hx ▸ le_max_left _ _
  have h2 := hge p hp
  rw [hxe]
  linarith

/-- **C7** witness: on the demo document (`width = 2`), the computed
offset is `max(702, 1) = 702` and the emitted x of the sample at `x = 0`
is non-negative. -/
theorem c7_x_offset_witness :
    get_dimensions demoBlocks
      = some { height := 2, width := 2, xpos_delta := 702, ypos_delta := 0 } ∧
    (702:ℚ) = max 702 ((2:ℚ) / 2) ∧ (0:ℚ) ≤ 702 := by
  have hdim : get_dimensions demoBlocks
      = some { height := 2, width := 2, xpos_delta := 702, ypos_delta := 0 } := by
    norm_num [get_dimensions, get_limits, get_limits_stroke, mergeLimits, demoBlocks,
      demoStroke, samplePoint, XPOS_SHIFT, SCREEN_WIDTH]
  have h := c7_x_offset demoBlocks
    { height := 2, width := 2, xpos_delta := 702, ypos_delta := 0 }
    testPen "" demoStroke.points hdim
  refine ⟨hdim, h.1, ?_⟩
  have hmem : Frag.vertex 702 0 ∈
      (strokeRun testPen ""
        { height := 2, width := 2, xpos_delta := 702, ypos_delta := 0 }
        0 strokeInit demoStroke.points).1 := by
    norm_num [strokeRun, strokeStep, strokeInit, demoStroke, samplePoint, testPen]
  exact h.2 (by norm_num [demoStroke, samplePoint]) 702 0 hmem

/-- **C8**.  For every document whose dimensions are computed,
`ypos_delta = 0`; and when the scanned `ymin` is negative the page height
becomes `⌈ymax − ymin⌉ + ymin` — the height is shrunk by `ymin` rather
than any y-coordinate being translated. -/
theorem c8_y_offset_and_height_trim :
    (∀ (blocks : List Block) (info : SvgDocInfo),
      get_dimensions blocks = some info → info.ypos_delta = 0) ∧
    (∀ (blocks : List Block) (xm xM ym yM : ℚ) (info : SvgDocInfo),
      get_limits blocks = some (some (xm, xM, ym, yM)) →
      get_dimensions blocks = some info →
      ym < 0 → info.height = ((⌈yM - ym⌉ : ℤ) : ℚ) + ym) := by
  constructor
  · intro blocks info h
    unfold get_dimensions at h
    rcases hL : get_limits blocks with _ | limits <;> rw [hL] at h
    · exact absurd h (by simp)
    rcases limits with _ | ⟨a, b, c, d⟩
    · exact absurd h (by simp)
    · simp only [Option.some.injEq] at h
      split at h <;> (cases h; rfl)
  · intro blocks xm xM ym yM info hL h hlt
    unfold get_dimensions at h
    rw [hL] at h
    simp only [Option.some.injEq] at h
    rw [if_pos hlt] at h
    cases h
    rfl

/-- A stroke dipping into negative y: bounds `(0, 4, -3, 5)`. -/
def c8Stroke : Stroke :=
  { toolValue := 0, toolName := "BALLPOINT", colorValue := 0, colorName := "BLACK",
    thickness_scale := 1, points := [samplePoint 0 (-3), samplePoint 4 5] }

def c8Blocks : List Block := [Block.sceneLineItem "a" (some c8Stroke)]

/-- **C8** witness: `ymin = -3 < 0`, so the height is
`⌈5 − (−3)⌉ + (−3) = 5` while `ypos_delta` stays `0`. -/
theorem c8_y_offset_witness :
    get_dimensions c8Blocks
      = some { height := 5, width := 4, xpos_delta := 702, ypos_delta := 0 } ∧
    ({ height := 5, width := 4, xpos_delta := 702, ypos_delta := 0 } : SvgDocInfo).ypos_delta
      = 0 ∧
    ({ height := 5, width := 4, xpos_delta := 702, ypos_delta := 0 } : SvgDocInfo).height
      = ((⌈(5:ℚ) - (-3)⌉ : ℤ) : ℚ) + (-3) := by
  have hlim : get_limits c8Blocks = some (some (0, 4, -3, 5)) := by
    norm_num [get_limits, get_limits_stroke, mergeLimits, c8Blocks, c8Stroke, samplePoint]
  have hdim : get_dimensions c8Blocks
      = some { height := 5, width := 4, xpos_delta := 702, ypos_delta := 0 } := by
    norm_num [get_dimensions, get_limits, get_limits_stroke, mergeLimits, c8Blocks,
      c8Stroke, samplePoint, XPOS_SHIFT, SCREEN_WIDTH]
  refine ⟨hdim, c8_y_offset_and_height_trim.1 c8Blocks _ hdim, ?_⟩
  exact c8_y_offset_and_height_trim.2 c8Blocks 0 4 (-3) 5 _ hlim hdim (by norm_num)

/-- **C9**.  `-1.0` is the sentinel for "no previous point" (svg.py lines
198 and 228): while processing sample `i+1`, the loop emits the join
vertex to the previous sample exactly when the previous sample's
translated x differs from `-1`; if it equals `-1` exactly, only the
current vertex is emitted (1 coordinate pair instead of 2) and the
connection is silently lost.  The second conjunct places that iteration's
output inside the stroke's overall output. -/
theorem c9_sentinel_join (pen : Pen) (filt : String) (info : SvgDocInfo)
    (pts : List Point) (i : ℕ) (h : i + 1 < pts.length) :
    ((strokeStep pen filt info (i + 1) (pts.get ⟨i + 1, h⟩)
        (strokeRun pen filt info 0 strokeInit (pts.take (i + 1))).2).1.countP isVertex
      = if (pts.get ⟨i, by omega⟩).x + info.xpos_delta = -1 then 1 else 2) ∧
    (strokeRun pen filt info 0 strokeInit pts).1 =
      (strokeRun pen filt info 0 strokeInit (pts.take (i + 1))).1 ++
      (strokeStep pen filt info (i + 1) (pts.get ⟨i + 1, h⟩)
        (strokeRun pen filt info 0 strokeInit (pts.take (i + 1))).2).1 ++
      (strokeRun pen filt info (i + 2)
        (strokeStep pen filt info (i + 1) (pts.get ⟨i + 1, h⟩)
          (strokeRun pen filt info 0 strokeInit (pts.take (i + 1))).2).2
        (pts.drop (i + 2))).1 := by
  have hne : pts.take (i + 1) ≠ [] := by
    intro hnil
    have hlen : (pts.take (i + 1)).length = i + 1 := by
      rw [List.length_take]; omega
    rw [hnil] at hlen
    simp at hlen
  have hlast : ((strokeRun pen filt info 0 strokeInit (pts.take (i + 1))).2).last_xpos
      = ((pts.take (i + 1)).getLast hne).x + info.xpos_delta :=
    strokeRun_last_state pen filt info (pts.take (i + 1)) 0 strokeInit hne
  have hgl : (pts.take (i + 1)).getLast hne = pts.get ⟨i, by omega⟩ := by
    rw [List.getLast_eq_getElem]
    have hlen : (pts.take (i + 1)).length = i + 1 := by
      rw [List.length_take]; omega
    simp only [hlen, Nat.add_sub_cancel, List.get_eq_getElem]
    rw [List.getElem_take]
  have hx : ((strokeRun pen filt info 0 strokeInit (pts.take (i + 1))).2).last_xpos
      = (pts.get ⟨i, by omega⟩).x + info.xpos_delta := by rw [hlast, hgl]
  constructor
  · rw [strokeStep]
    by_cases hb : (i + 1) % pen.segment_length = 0 <;>
      by_cases hs : (pts.get ⟨i, by omega⟩).x + info.xpos_delta = -1 <;>
      simp only [List.get_eq_getElem] at hs <;>
      simp [hb, hx, hs, isVertex, List.countP_cons, List.countP_append]
  · conv_lhs => rw [show pts = pts.take (i + 1) ++ pts.drop (i + 1) from
      (List.take_append_drop _ _).symm]
    rw [strokeRun_append]
    have hlen : (pts.take (i + 1)).length = i + 1 := by
      rw [List.length_take]; omega
    rw [hlen, Nat.zero_add]
    rw [List.drop_eq_getElem_cons h]
    have hstep : strokeRun pen filt info (i + 1)
        (strokeRun pen filt info 0 strokeInit (pts.take (i + 1))).2
        (pts[i + 1] :: pts.drop (i + 1 + 1))
        = ((strokeStep pen filt info (i + 1) pts[i + 1]
              (strokeRun pen filt info 0 strokeInit (pts.take (i + 1))).2).1 ++
            (strokeRun pen filt info (i + 2)
              (strokeStep pen filt info (i + 1) pts[i + 1]
                (strokeRun pen filt info 0 strokeInit (pts.take (i + 1))).2).2
              (pts.drop (i + 2))).1,
           (strokeRun pen filt info (i + 2)
              (strokeStep pen filt info (i + 1) pts[i + 1]
                (strokeRun pen filt info 0 strokeInit (pts.take (i + 1))).2).2
              (pts.drop (i + 2))).2) := rfl
    rw [hstep]
    simp only [List.get_eq_getElem, List.append_assoc]

/-- A stroke whose first sample lands exactly on the sentinel after
translation: `-703 + 702 = -1`. -/
def c9Pts : List Point := [samplePoint (-703) 5, samplePoint 1 1]

/-- **C9** witness: with offsets `(702, 0)`, processing the second sample
of `c9Pts` emits only 1 coordinate pair — the join to the previous sample
is silently dropped because its translated x equals `-1` exactly. -/
theorem c9_sentinel_join_witness :
    (strokeStep testPen "" scnInfo (0 + 1) (c9Pts.get ⟨0 + 1, by norm_num [c9Pts]⟩)
        (strokeRun testPen "" scnInfo 0 strokeInit (c9Pts.take (0 + 1))).2).1.countP isVertex
      = 1 := by
  have h := (c9_sentinel_join testPen "" scnInfo c9Pts 0 (by norm_num [c9Pts])).1
  rw [h]
  norm_num [c9Pts, samplePoint, scnInfo]

end Rmc
